import Mathlib

/-!
Verification of the WedSync TEST-WORKFLOW issue classification and routing
pipeline, shallowly embedded from
src/TEST-WORKFLOW/ORCHESTRATOR/orchestrator.py (class WedSyncOrchestrator)
and src/TEST-WORKFLOW/INGESTION/parse-sonarqube.py.

Python strings are modelled as lists of characters; the Python string
operations used by the pipeline (lower, upper, replace, split, strip, join,
substring containment) are defined below with Python semantics.  External
collaborators (the md5 hash used for id suffixes, the git-based
already-resolved check, the git-log similar-fixes query, and the wall-clock
created_at timestamp) are passed in as parameters, since the pipeline only
consumes their results.
-/

/-- A Python string, modelled as its list of characters. -/
abbrev Str := List Char

/-- Embed a Lean string literal as a Python string value. -/
def str (s : String) : Str := s.data

/-- ASCII case folding for one character, as performed by Python str.lower
on the ASCII range (all rule ids, keys and severities in this code base are
ASCII). -/
def pyLowerChar (c : Char) : Char :=
  match c with
  | 'A' => 'a' | 'B' => 'b' | 'C' => 'c' | 'D' => 'd' | 'E' => 'e' | 'F' => 'f'
  | 'G' => 'g' | 'H' => 'h' | 'I' => 'i' | 'J' => 'j' | 'K' => 'k' | 'L' => 'l'
  | 'M' => 'm' | 'N' => 'n' | 'O' => 'o' | 'P' => 'p' | 'Q' => 'q' | 'R' => 'r'
  | 'S' => 's' | 'T' => 't' | 'U' => 'u' | 'V' => 'v' | 'W' => 'w' | 'X' => 'x'
  | 'Y' => 'y' | 'Z' => 'z'
  | other => other

/-- ASCII upper-casing for one character, as performed by Python str.upper
on the ASCII range. -/
def pyUpperChar (c : Char) : Char :=
  match c with
  | 'a' => 'A' | 'b' => 'B' | 'c' => 'C' | 'd' => 'D' | 'e' => 'E' | 'f' => 'F'
  | 'g' => 'G' | 'h' => 'H' | 'i' => 'I' | 'j' => 'J' | 'k' => 'K' | 'l' => 'L'
  | 'm' => 'M' | 'n' => 'N' | 'o' => 'O' | 'p' => 'P' | 'q' => 'Q' | 'r' => 'R'
  | 's' => 'S' | 't' => 'T' | 'u' => 'U' | 'v' => 'V' | 'w' => 'W' | 'x' => 'X'
  | 'y' => 'Y' | 'z' => 'Z'
  | other => other

/-- Python s.lower(). -/
def pyLower (s : Str) : Str := s.map pyLowerChar

/-- Python s.upper(). -/
def pyUpper (s : Str) : Str := s.map pyUpperChar

/-- Python substring containment, needle in hay. -/
def pyContains : Str → Str → Bool
  | [], needle => needle.isEmpty
  | c :: t, needle => needle.isPrefixOf (c :: t) || pyContains t needle

/-- Worker for pyReplace.  Scans the input left to right replacing each
non-overlapping occurrence of pat by rep, consuming at least one input
character (and one unit of fuel) per step, so fuel equal to the input
length always suffices. -/
def replaceFuel (pat rep : Str) : Nat → Str → Str
  | 0, s => s
  | _ + 1, [] => []
  | fuel + 1, c :: t =>
    if pat.isPrefixOf (c :: t) && !pat.isEmpty then
      rep ++ replaceFuel pat rep fuel ((c :: t).drop pat.length)
    else
      c :: replaceFuel pat rep fuel t

/-- Python s.replace(pat, rep) for a non-empty pattern: replaces every
non-overlapping occurrence, scanning left to right. -/
def pyReplace (s pat rep : Str) : Str := replaceFuel pat rep s.length s

/-- Worker for pySplit, with the same fuel discipline as replaceFuel.
acc holds the current (reversed) chunk. -/
def splitFuel (sep : Str) : Nat → Str → Str → List Str
  | 0, acc, rest => [acc.reverse ++ rest]
  | _ + 1, acc, [] => [acc.reverse]
  | fuel + 1, acc, c :: t =>
    if sep.isPrefixOf (c :: t) && !sep.isEmpty then
      acc.reverse :: splitFuel sep fuel [] ((c :: t).drop sep.length)
    else
      splitFuel sep fuel (c :: acc) t

/-- Python s.split(sep) for a non-empty separator. -/
def pySplit (sep s : Str) : List Str := splitFuel sep s.length [] s

/-- Python whitespace characters relevant to this code base. -/
def isPySpace (c : Char) : Bool := c == ' ' || c == '\t' || c == '\n' || c == '\r'

/-- Python s.strip(). -/
def pyStrip (s : Str) : Str :=
  ((s.dropWhile isPySpace).reverse.dropWhile isPySpace).reverse

/-- Python sep.join(parts). -/
def pyJoin (sep : Str) : List Str → Str
  | [] => []
  | [p] => p
  | p :: q :: rest => p ++ sep ++ pyJoin sep (q :: rest)

/-- Python int(s) on a string of decimal digits.  (On non-digit input the
Python call raises; every call site proved about below receives digits.) -/
def pyInt (s : Str) : Nat := s.foldl (fun acc c => acc * 10 + (c.toNat - 48)) 0

/-- Rendering of an optional string inside a Python f-string:
a missing value (None) renders as the text None. -/
def fmtOptStr (o : Option Str) : Str := o.getD (str "None")

/-- Rendering of an optional integer inside a Python f-string. -/
def fmtOptNat (o : Option Nat) : Str :=
  match o with
  | some n => Nat.toDigits 10 n
  | none => str "None"

/-! ## Data model (orchestrator.py lines 30-53) -/

/-- The normalized issue record (dataclass Issue, orchestrator.py 30-40).
The raw_data field of the Python dataclass (the original source record) is
never read downstream except by check_already_resolved, whose outcome is an
explicit parameter of route_issue below, so it is not carried here. -/
structure Issue where
  id : Str
  source : Str
  severity : Str
  rule_id : Str
  file_path : Str
  line : Nat
  message : Str
  category : Str
deriving DecidableEq, Repr

/-- The routed job record (dataclass Job, orchestrator.py 42-53). -/
structure Job where
  id : Str
  issue : Issue
  job_type : Str
  complexity_score : Nat
  estimated_minutes : Nat
  pattern : Option Str
  requires_agents : List Str
  verification_level : Str
  similar_fixes : List Str
  created_at : Str
deriving DecidableEq, Repr

/-- One entry of the pattern library (orchestrator.py 103-128).  Only the
complexity field is ever read by the pipeline (calculate_complexity reads
it with a default via dict.get); the name field is kept for fidelity, and
the unread JSON fields pattern, verification, estimated_minutes and
success_rate are omitted. -/
structure PatternEntry where
  name : Str
  complexity : Option Nat
deriving DecidableEq, Repr

/-- The pattern library: an insertion-ordered string-keyed dictionary. -/
abbrev PatternLib := List (Str × PatternEntry)

/-- The default pattern library written by load_patterns when no persisted
library exists (orchestrator.py 103-128). -/
def default_patterns : PatternLib :=
  [ (str "sonar-S3516", { name := str "single-return-refactor", complexity := some 2 })
  , (str "sonar-S128", { name := str "switch-case-breaks", complexity := some 1 })
  , (str "typescript-missing-await", { name := str "async-await-fix", complexity := some 3 }) ]

/-! ## Severity and category classification (orchestrator.py 215-303) -/

/-- map_coderabbit_severity (orchestrator.py 215-224). -/
def map_coderabbit_severity (severity : Str) : Str :=
  let severity_map : List (Str × Str) :=
    [ (str "critical", str "CRITICAL")
    , (str "major", str "MAJOR")
    , (str "minor", str "MINOR")
    , (str "refactor", str "MINOR")
    , (str "style", str "INFO") ]
  (severity_map.lookup (pyLower severity)).getD (str "MINOR")

/-- categorize_sonar_rule (orchestrator.py 263-276): substring matching of
fixed rule lists against the rule string. -/
def categorize_sonar_rule (rule : Str) : Str :=
  let security_rules := [str "S2068", str "S2070", str "S3649", str "S4502", str "S5122"]
  let performance_rules := [str "S1854", str "S1481", str "S3776"]
  let maintainability_rules := [str "S3516", str "S128", str "S1172"]
  if security_rules.any (fun r => pyContains rule r) then str "security"
  else if performance_rules.any (fun r => pyContains rule r) then str "performance"
  else if maintainability_rules.any (fun r => pyContains rule r) then str "maintainability"
  else str "general"

/-- categorize_ts_error (orchestrator.py 278-291): exact membership of the
numeric error code in fixed lists. -/
def categorize_ts_error (error_code : Str) : Str :=
  let type_errors := [str "2345", str "2322", str "2339", str "2304"]
  let async_errors := [str "1308", str "2335", str "2794"]
  let import_errors := [str "2307", str "2306", str "2305"]
  if type_errors.contains error_code then str "types"
  else if async_errors.contains error_code then str "async"
  else if import_errors.contains error_code then str "imports"
  else str "syntax"

/-- map_ts_severity (orchestrator.py 293-303). -/
def map_ts_severity (error_code : Str) : Str :=
  let critical_errors := [str "1005", str "1109", str "1128"]
  let major_errors := [str "2345", str "2322", str "2339"]
  if critical_errors.contains error_code then str "CRITICAL"
  else if major_errors.contains error_code then str "MAJOR"
  else str "MINOR"

/-! ## Complexity scorer (orchestrator.py 336-366) -/

/-- The severity base score: severity_scores.get(issue.severity, 3)
(orchestrator.py 341-348). -/
def severity_base (severity : Str) : Nat :=
  if severity == str "BLOCKER" then 8
  else if severity == str "CRITICAL" then 6
  else if severity == str "MAJOR" then 4
  else if severity == str "MINOR" then 2
  else if severity == str "INFO" then 1
  else 3

/-- The pattern-library key derived from a rule id:
issue.rule_id.lower().replace(ts, typescript-) (orchestrator.py 351). -/
def pattern_key (rule_id : Str) : Str :=
  pyReplace (pyLower rule_id) (str "ts") (str "typescript-")

/-- The sensitive path segments (orchestrator.py 356). -/
def sensitive_paths : List Str :=
  [str "/api/", str "/auth/", str "/payment/", str "/marketplace/"]

/-- The +3 file-path adjustment: applied when any sensitive segment occurs
in issue.file_path.lower() (orchestrator.py 355-358). -/
def path_bonus (file_path : Str) : Nat :=
  if sensitive_paths.any (fun p => pyContains (pyLower file_path) p) then 3 else 0

/-- The category adjustment: +4 for security, +2 for performance
(orchestrator.py 360-364). -/
def category_bonus (category : Str) : Nat :=
  if category == str "security" then 4
  else if category == str "performance" then 2
  else 0

/-- calculate_complexity (orchestrator.py 336-366): severity base score,
overridden (not added to) by the library entry complexity when the derived
pattern key is a library key, then the path and category adjustments, then
the final min with 10. -/
def calculate_complexity (patterns : PatternLib) (issue : Issue) : Nat :=
  let base := severity_base issue.severity
  let score :=
    match patterns.lookup (pattern_key issue.rule_id) with
    | some entry => entry.complexity.getD base
    | none => base
  min (score + path_bonus issue.file_path + category_bonus issue.category) 10

/-! ## Router (orchestrator.py 384-456) -/

/-- The rule-fragment to pattern-name table of get_pattern_name
(orchestrator.py 444-450), in Python dict insertion order. -/
def rule_patterns : List (Str × Str) :=
  [ (str "S3516", str "pattern-single-return")
  , (str "S128", str "pattern-switch-cases")
  , (str "2794", str "pattern-async-await")
  , (str "2307", str "pattern-import-fixes")
  , (str "2345", str "pattern-type-assertions") ]

/-- get_pattern_name (orchestrator.py 442-456): first table fragment that
is a substring of the rule id wins, defaulting to pattern-general. -/
def get_pattern_name (issue : Issue) : Str :=
  match rule_patterns.find? (fun rp => pyContains issue.rule_id rp.fst) with
  | some rp => rp.snd
  | none => str "pattern-general"

/-- route_issue (orchestrator.py 384-440).  The outcome of
check_already_resolved (a git/filesystem collaborator) is the resolved
parameter; the result of find_similar_fixes (a git-log collaborator) is the
similar_fixes parameter; the datetime.now().isoformat() timestamp is the
created_at parameter.  The SKIP branch is taken before complexity is ever
computed, and hard-codes similar_fixes to the empty list as the source
does. -/
def route_issue (patterns : PatternLib) (resolved : Bool) (similar_fixes : List Str)
    (created_at : Str) (issue : Issue) : Job :=
  if resolved then
    { id := str "job-" ++ issue.id
    , issue := issue
    , job_type := str "SKIP"
    , complexity_score := 0
    , estimated_minutes := 1
    , pattern := some (str "already-resolved")
    , requires_agents := []
    , verification_level := str "NONE"
    , similar_fixes := []
    , created_at := created_at }
  else
    let complexity := calculate_complexity patterns issue
    if complexity ≤ 3 then
      { id := str "job-" ++ issue.id
      , issue := issue
      , job_type := str "SPEED"
      , complexity_score := complexity
      , estimated_minutes := 5
      , pattern := some (get_pattern_name issue)
      , requires_agents := []
      , verification_level := str "BASIC"
      , similar_fixes := similar_fixes
      , created_at := created_at }
    else
      -- agents_needed accumulates the security-officer append, then the
      -- architecture-reviewer append (orchestrator.py 423-427)
      let agents_needed :=
        (if issue.category == str "security" || pyContains (pyLower issue.file_path) (str "auth")
         then [str "security-officer"] else [])
        ++ (if 8 ≤ complexity then [str "architecture-reviewer"] else [])
      { id := str "job-" ++ issue.id
      , issue := issue
      , job_type := str "DEEP"
      , complexity_score := complexity
      , estimated_minutes := complexity * 3
      , pattern := none
      , requires_agents := agents_needed
      , verification_level := str "COMPREHENSIVE"
      , similar_fixes := similar_fixes
      , created_at := created_at }

/-! ## Ingestion (orchestrator.py 136-261)

The file read plus JSON decode step is modelled by ReadResult: a report is
either decoded data, bytes that raise UnicodeDecodeError, or text that
raises json.JSONDecodeError.  Python exceptions that a function does not
catch are modelled by an Except return value. -/

/-- Outcome of opening and JSON-decoding one report file. -/
inductive ReadResult (α : Type) where
  | ok (data : α)
  | undecodableBytes
  | invalidJson
deriving DecidableEq, Repr

/-- Outcome of opening one plain-text report file. -/
inductive TextResult where
  | ok (lines : List Str)
  | undecodableBytes
deriving DecidableEq, Repr

/-- A Python exception escaping an ingestion function. -/
inductive PyError where
  | unicodeDecodeError
  | jsonDecodeError
deriving DecidableEq, Repr

/-- One record of the flat issues list of a standard SonarQube report
(orchestrator.py 170-186).  Each field is optional, as the source reads
every field with dict.get. -/
structure SonarItem where
  component : Option Str
  line : Option Nat
  severity : Option Str
  rule : Option Str
  message : Option Str
deriving DecidableEq, Repr

/-- One record of the nested issues lists of the WedSync custom format
(orchestrator.py 151-169). -/
structure CustomItem where
  id : Option Str
  file : Option Str
  line : Option Nat
  severity : Option Str
  rule : Option Str
  message : Option Str
deriving DecidableEq, Repr

/-- The two decoded shapes accepted by ingest_sonarqube: the WedSync custom
format keyed error_categories (severity key to issue list, each list the
issues field of the category record), or the standard flat issues list. -/
inductive SonarData where
  | custom (error_categories : List (Str × List CustomItem))
  | standard (issues : List SonarItem)
deriving DecidableEq, Repr

/-- The Issue built from one standard-format record (orchestrator.py
172-186).  md5hex8 is the first-8-hex-digits md5 collaborator; the id
interpolates the raw optional rule and the hash of component and line as
rendered by a Python f-string. -/
def sonarItemToIssue (md5hex8 : Str → Str) (item : SonarItem) : Issue :=
  let component_line := fmtOptStr item.component ++ fmtOptNat item.line
  let hash_suffix := md5hex8 component_line
  { id := str "sonar-" ++ fmtOptStr item.rule ++ str "-" ++ hash_suffix
  , source := str "sonarqube"
  , severity := pyUpper (item.severity.getD (str "UNKNOWN"))
  , rule_id := item.rule.getD []
  , file_path := item.component.getD []
  , line := item.line.getD 0
  , message := item.message.getD []
  , category := categorize_sonar_rule (item.rule.getD []) }

/-- The Issue built from one custom-format record under an outer severity
key (orchestrator.py 153-169). -/
def customItemToIssue (md5hex8 : Str → Str) (outer_severity : Str) (item : CustomItem) : Issue :=
  let file_line_key := fmtOptStr item.file ++ fmtOptNat item.line
  let hash_suffix := md5hex8 file_line_key
  { id := item.id.getD (str "sonar-" ++ fmtOptStr item.rule ++ str "-" ++ hash_suffix)
  , source := str "sonarqube"
  , severity := pyUpper (item.severity.getD outer_severity)
  , rule_id := item.rule.getD []
  , file_path := item.file.getD []
  , line := item.line.getD 0
  , message := item.message.getD []
  , category := categorize_sonar_rule (item.rule.getD []) }

/-- The standard-format loop of ingest_sonarqube (orchestrator.py 170-188). -/
def ingest_sonarqube_std (md5hex8 : Str → Str) (items : List SonarItem) : List Issue :=
  items.map (sonarItemToIssue md5hex8)

/-- ingest_sonarqube (orchestrator.py 136-188): catches UnicodeDecodeError
and json.JSONDecodeError, printing a warning and returning the empty issue
list, so one bad report contributes nothing and the run continues. -/
def ingest_sonarqube (md5hex8 : Str → Str) : ReadResult SonarData → List Issue
  | .undecodableBytes => []
  | .invalidJson => []
  | .ok (.custom cats) =>
      (cats.map (fun sc => sc.snd.map (customItemToIssue md5hex8 sc.fst))).flatten
  | .ok (.standard items) => ingest_sonarqube_std md5hex8 items

/-- A multi-report SonarQube ingestion run, as driven by the
process-everything loop of main (orchestrator.py 565-603): each report is
ingested in turn and the issue lists are concatenated. -/
def runSonarReports (md5hex8 : Str → Str) (reports : List (ReadResult SonarData)) : List Issue :=
  (reports.map (ingest_sonarqube md5hex8)).flatten

/-- One record of a CodeRabbit report (orchestrator.py 196-211). -/
structure CRItem where
  pr : Option Str
  file : Option Str
  line : Option Nat
  severity : Option Str
  summary : Option Str
deriving DecidableEq, Repr

/-- The Issue built from one CodeRabbit record (orchestrator.py 196-211). -/
def crItemToIssue (md5hex8 : Str → Str) (item : CRItem) : Issue :=
  let file_line_key := fmtOptStr item.file ++ fmtOptNat item.line
  let hash_suffix := md5hex8 file_line_key
  { id := str "cr-" ++ fmtOptStr item.pr ++ str "-" ++ hash_suffix
  , source := str "coderabbit"
  , severity := map_coderabbit_severity (item.severity.getD (str "minor"))
  , rule_id := str "CR-" ++ item.severity.getD (str "refactor")
  , file_path := item.file.getD []
  , line := item.line.getD 0
  , message := item.summary.getD []
  , category := str "refactor" }

/-- ingest_coderabbit (orchestrator.py 190-213): the file open and
json.load are NOT wrapped in try/except, so an undecodable or malformed
report raises out of the function and aborts the run. -/
def ingest_coderabbit (md5hex8 : Str → Str) :
    ReadResult (List CRItem) → Except PyError (List Issue)
  | .undecodableBytes => .error .unicodeDecodeError
  | .invalidJson => .error .jsonDecodeError
  | .ok items => .ok (items.map (crItemToIssue md5hex8))

/-- The per-line parse of ingest_typescript (orchestrator.py 226-261):
a line containing error TS is split, field by field, into one Issue;
other lines yield nothing. -/
def parse_ts_line (md5hex8 : Str → Str) (line : Str) : Option Issue :=
  if pyContains line (str "error TS") then
    let parts := pySplit (str ": error TS") (pyStrip line)
    if 2 ≤ parts.length then
      let file_info := parts.getD 0 []
      let error_info := parts.getD 1 []
      let fp := (pySplit (str "(") file_info).getD 0 []
      let line_info :=
        if pyContains file_info (str "(") then
          (pySplit (str ")") ((pySplit (str "(") file_info).getD 1 [])).getD 0 []
        else str "0,0"
      let line_number := if line_info.isEmpty then 0
                         else pyInt ((pySplit (str ",") line_info).getD 0 [])
      let error_code := (pySplit (str ":") error_info).getD 0 []
      let message := pyStrip (pyJoin (str ":") ((pySplit (str ":") error_info).drop 1))
      let file_line_key := fp ++ Nat.toDigits 10 line_number
      let hash_suffix := md5hex8 file_line_key
      some { id := str "ts-" ++ error_code ++ str "-" ++ hash_suffix
           , source := str "typescript"
           , severity := map_ts_severity error_code
           , rule_id := str "TS" ++ error_code
           , file_path := fp
           , line := line_number
           , message := message
           , category := categorize_ts_error error_code }
    else none
  else none

/-- ingest_typescript (orchestrator.py 226-261): iterates the lines of a
text report.  The open and iteration are NOT wrapped in try/except, so
undecodable bytes raise UnicodeDecodeError out of the function. -/
def ingest_typescript (md5hex8 : Str → Str) : TextResult → Except PyError (List Issue)
  | .undecodableBytes => .error .unicodeDecodeError
  | .ok lines => .ok (lines.filterMap (parse_ts_line md5hex8))

/-- The severity extraction of the companion ingestion script
parse_sonarqube_results (src/TEST-WORKFLOW/INGESTION/parse-sonarqube.py,
line 46): issue.get(severity-field, INFO).upper() - this script, unlike the
orchestrator, defaults a missing severity to INFO. -/
def parse_sonarqube_severity (severity_field : Option Str) : Str :=
  pyUpper (severity_field.getD (str "INFO"))

/-! ## Concrete inputs used by witnesses and counterexamples -/

/-- A stand-in for the md5 collaborator at concrete inputs. -/
def constHash : Str → Str := fun _ => str "00000000"

/-- The TypeScript compiler line of spec Scenario C. -/
def tsLineC : Str := str "foo.ts(12,3): error TS2307: Cannot find module 'x'"

/-- The Issue that ingest_typescript actually produces from tsLineC. -/
def tsIssueC : Issue :=
  { id := str "ts-2307-00000000"
  , source := str "typescript"
  , severity := str "MINOR"
  , rule_id := str "TS2307"
  , file_path := str "foo.ts"
  , line := 12
  , message := str "Cannot find module 'x'"
  , category := str "imports" }

/-- An issue of complexity exactly 3: a severity outside the score table
takes the dict.get default 3, with no path or category adjustment. -/
def issueScore3 : Issue :=
  { id := str "w1", source := str "sonarqube", severity := str "UNKNOWN"
  , rule_id := str "S9999", file_path := str "src/index.ts", line := 1
  , message := str "m", category := str "general" }

/-- An issue of complexity exactly 4 (MAJOR base, no adjustments). -/
def issueMajorGeneral : Issue :=
  { id := str "w2", source := str "sonarqube", severity := str "MAJOR"
  , rule_id := str "S9999", file_path := str "src/index.ts", line := 1
  , message := str "m", category := str "general" }

/-- The clamp boundary issue of the spec: BLOCKER severity, sensitive api
path, security category. -/
def issueBlockerSecurity : Issue :=
  { id := str "w3", source := str "sonarqube", severity := str "BLOCKER"
  , rule_id := str "S2068", file_path := str "src/api/pay.ts", line := 7
  , message := str "m", category := str "security" }

/-- A one-entry pattern library whose key is the pattern key of rule id
S0042 and whose precomputed complexity is 2. -/
def libC2 : PatternLib := [(str "s0042", { name := str "demo-entry", complexity := some 2 })]

/-- A BLOCKER issue whose rule id maps to the complexity-2 entry of libC2,
with a non-sensitive path and a neutral category. -/
def issueC2 : Issue :=
  { id := str "w4", source := str "sonarqube", severity := str "BLOCKER"
  , rule_id := str "S0042", file_path := str "src/index.ts", line := 1
  , message := str "m", category := str "general" }

/-- A standard SonarQube record with no severity field. -/
def sqItemNoSeverity : SonarItem :=
  { component := some (str "src/a.ts"), line := some 3, severity := none
  , rule := some (str "S100"), message := some (str "msg") }

/-- A SonarQube-sourced issue whose rule id tsmissing-await is transformed
by the scorer into the default-library key typescript-missing-await. -/
def issueTsAwait : Issue :=
  { id := str "w5", source := str "sonarqube", severity := str "BLOCKER"
  , rule_id := str "tsmissing-await", file_path := str "src/a.ts", line := 1
  , message := str "m", category := str "general" }

/-- Two issues that agree on severity, rule id, file path and category but
differ in id, line and message. -/
def issueDetA : Issue :=
  { id := str "a", source := str "sonarqube", severity := str "MAJOR"
  , rule_id := str "S1000", file_path := str "src/a.ts", line := 1
  , message := str "first", category := str "general" }

/-- See issueDetA. -/
def issueDetB : Issue :=
  { id := str "b", source := str "sonarqube", severity := str "MAJOR"
  , rule_id := str "S1000", file_path := str "src/a.ts", line := 99
  , message := str "second", category := str "general" }

/-! ## Helper lemmas -/

/-- ASCII case folding never produces the upper-case letter S. -/
theorem pyLowerChar_ne_S (c : Char) : pyLowerChar c ≠ 'S' := by
  unfold pyLowerChar
  split <;> simp_all

/-- Every character of a replaceFuel result comes from the replacement
string or from the input string. -/
theorem mem_replaceFuel (pat rep : Str) {c : Char} :
    ∀ (fuel : Nat) (s : Str), c ∈ replaceFuel pat rep fuel s → c ∈ rep ∨ c ∈ s := by
  intro fuel
  induction fuel with
  | zero => exact fun s h => Or.inr h
  | succ n ih =>
    intro s h
    match s with
    | [] => simp [replaceFuel] at h
    | a :: t =>
      rw [replaceFuel] at h
      by_cases hc : (pat.isPrefixOf (a :: t) && !pat.isEmpty) = true
      · rw [if_pos hc] at h
        rcases List.mem_append.mp h with h1 | h1
        · exact Or.inl h1
        · rcases ih _ h1 with h2 | h2
          · exact Or.inl h2
          · exact Or.inr (List.mem_of_mem_drop h2)
      · rw [if_neg hc] at h
        rcases List.mem_cons.mp h with h1 | h1
        · exact Or.inr (h1 ▸ List.mem_cons_self a t)
        · rcases ih _ h1 with h2 | h2
          · exact Or.inl h2
          · exact Or.inr (List.mem_cons_of_mem a h2)

/-- The scorer pattern key (lower-cased rule id with ts replaced by
typescript-) never contains the upper-case letter S. -/
theorem S_not_mem_pattern_key (r : Str) : 'S' ∉ pattern_key r := by
  intro h
  unfold pattern_key pyReplace at h
  rcases mem_replaceFuel _ _ _ _ h with h1 | h1
  · exact absurd h1 (by decide)
  · rcases List.mem_map.mp h1 with ⟨c, _, hc⟩
    exact pyLowerChar_ne_S c hc

/-- A key different from all three default-library keys misses the default
library. -/
theorem lookup_default_none (k : Str) (h1 : k ≠ str "sonar-S3516")
    (h2 : k ≠ str "sonar-S128") (h3 : k ≠ str "typescript-missing-await") :
    default_patterns.lookup k = none := by
  simp [default_patterns, List.lookup, beq_eq_false_iff_ne.mpr h1,
    beq_eq_false_iff_ne.mpr h2, beq_eq_false_iff_ne.mpr h3]

/-- When no fragment of the rule-to-pattern table occurs in the rule id,
get_pattern_name returns pattern-general. -/
theorem get_pattern_name_default (issue : Issue)
    (h : rule_patterns.all (fun rp => !pyContains issue.rule_id rp.fst) = true) :
    get_pattern_name issue = str "pattern-general" := by
  unfold get_pattern_name
  have hnone : rule_patterns.find? (fun rp => pyContains issue.rule_id rp.fst) = none := by
    rw [List.find?_eq_none]
    intro x hx
    have := List.all_eq_true.mp h x hx
    simp_all
  rw [hnone]

/-! ## Claim theorems -/

/-- Claim C1: for an unresolved issue, routing is decided by the complexity
score with the threshold inclusive on the SPEED side.  A score at most 3
yields a SPEED job with verification BASIC, 5 estimated minutes and the
first matching rule-fragment pattern (pattern-general when no fragment of
the table occurs in the rule id); a score above 3 yields a DEEP job with
verification COMPREHENSIVE, estimated minutes equal to the score times 3,
and no pattern. -/
theorem C1_routing_threshold (patterns : PatternLib) (sf : List Str) (ca : Str) (issue : Issue) :
    (calculate_complexity patterns issue ≤ 3 →
      (route_issue patterns false sf ca issue).job_type = str "SPEED" ∧
      (route_issue patterns false sf ca issue).verification_level = str "BASIC" ∧
      (route_issue patterns false sf ca issue).estimated_minutes = 5 ∧
      (route_issue patterns false sf ca issue).pattern = some (get_pattern_name issue) ∧
      (rule_patterns.all (fun rp => !pyContains issue.rule_id rp.fst) = true →
        (route_issue patterns false sf ca issue).pattern = some (str "pattern-general"))) ∧
    (3 < calculate_complexity patterns issue →
      (route_issue patterns false sf ca issue).job_type = str "DEEP" ∧
      (route_issue patterns false sf ca issue).verification_level = str "COMPREHENSIVE" ∧
      (route_issue patterns false sf ca issue).estimated_minutes =
        calculate_complexity patterns issue * 3 ∧
      (route_issue patterns false sf ca issue).pattern = none) := by
  constructor
  · intro h
    refine ⟨?_, ?_, ?_, ?_, fun hall => ?_⟩ <;> simp [route_issue, h]
    exact get_pattern_name_default issue hall
  · intro h
    have hnot : ¬ calculate_complexity patterns issue ≤ 3 := Nat.not_le.mpr h
    refine ⟨?_, ?_, ?_, ?_⟩ <;> simp [route_issue, hnot]

/-- Witness for C1 at complexity exactly 3 (SPEED) and exactly 4 (DEEP). -/
theorem C1_routing_threshold_witness :
    (route_issue default_patterns false [] (str "t") issueScore3).job_type = str "SPEED" ∧
    (route_issue default_patterns false [] (str "t") issueScore3).estimated_minutes = 5 ∧
    (route_issue default_patterns false [] (str "t") issueScore3).pattern
      = some (str "pattern-general") ∧
    (route_issue default_patterns false [] (str "t") issueMajorGeneral).job_type = str "DEEP" ∧
    (route_issue default_patterns false [] (str "t") issueMajorGeneral).estimated_minutes = 12 := by
  have hA := (C1_routing_threshold default_patterns [] (str "t") issueScore3).1 (by decide)
  have hB := (C1_routing_threshold default_patterns [] (str "t") issueMajorGeneral).2 (by decide)
  refine ⟨hA.1, hA.2.2.1, hA.2.2.2.2 (by decide), hB.1, ?_⟩
  rw [hB.2.2.1]
  decide

/-- Claim C2: a pattern-library hit overrides the severity base score
rather than adding to it; with a complexity-2 entry, a non-sensitive path
and a neutral category the final score is 2 even for severity BLOCKER. -/
theorem C2_pattern_override (patterns : PatternLib) (issue : Issue) (entry : PatternEntry)
    (hlk : patterns.lookup (pattern_key issue.rule_id) = some entry) :
    calculate_complexity patterns issue =
      min (entry.complexity.getD (severity_base issue.severity)
            + path_bonus issue.file_path + category_bonus issue.category) 10 ∧
    (entry.complexity = some 2 → path_bonus issue.file_path = 0 →
      category_bonus issue.category = 0 → calculate_complexity patterns issue = 2) := by
  constructor
  · simp only [calculate_complexity, hlk]
  · intro h2 hp hc
    simp only [calculate_complexity, hlk, h2, hp, hc, Option.getD_some]
    decide

/-- Witness for C2: a BLOCKER issue scored against a library whose entry
for its rule has complexity 2 scores 2. -/
theorem C2_pattern_override_witness : calculate_complexity libC2 issueC2 = 2 := by
  have h := C2_pattern_override libC2 issueC2
    { name := str "demo-entry", complexity := some 2 } (by decide)
  exact h.2 rfl (by decide) (by decide)

/-- Claim C3: the complexity score is clamped to at most 10, and the
BLOCKER plus sensitive-path plus security-category issue scores exactly 10
rather than 15. -/
theorem C3_clamp_max10 (patterns : PatternLib) (issue : Issue) :
    calculate_complexity patterns issue ≤ 10 ∧
    calculate_complexity default_patterns issueBlockerSecurity = 10 ∧
    severity_base issueBlockerSecurity.severity + path_bonus issueBlockerSecurity.file_path
      + category_bonus issueBlockerSecurity.category = 15 := by
  refine ⟨?_, by decide, by decide⟩
  simp only [calculate_complexity]
  exact Nat.min_le_right _ _

/-- Claim C7: an issue whose already-resolved check returns true is routed,
before any complexity evaluation, to a SKIP job with verification NONE,
1 estimated minute, pattern already-resolved and no required agents. -/
theorem C7_skip_job (patterns : PatternLib) (sf : List Str) (ca : Str) (issue : Issue) :
    route_issue patterns true sf ca issue =
      { id := str "job-" ++ issue.id
      , issue := issue
      , job_type := str "SKIP"
      , complexity_score := 0
      , estimated_minutes := 1
      , pattern := some (str "already-resolved")
      , requires_agents := []
      , verification_level := str "NONE"
      , similar_fixes := []
      , created_at := ca } := rfl

/-- Counterexample to claim C4: the TypeScript line of Scenario C yields an
Issue of severity MINOR, not MAJOR - map_ts_severity grades only the type
error codes 2345, 2322 and 2339 as MAJOR, and 2307 is not among them. -/
theorem C4_counterexample :
    ingest_typescript constHash (TextResult.ok [tsLineC]) = Except.ok [tsIssueC] ∧
    tsIssueC.severity = str "MINOR" ∧ str "MINOR" ≠ str "MAJOR" := by
  refine ⟨rfl, rfl, by decide⟩

/-- Claim C4 as amended: the TypeScript line of Scenario C yields one Issue
of severity MINOR and category imports, whose complexity score is 2 and
which routes to a SPEED job with 5 estimated minutes and pattern
pattern-import-fixes. -/
theorem C4_ts_scenario_amended :
    ingest_typescript constHash (TextResult.ok [tsLineC]) = Except.ok [tsIssueC] ∧
    tsIssueC.severity = str "MINOR" ∧
    tsIssueC.category = str "imports" ∧
    calculate_complexity default_patterns tsIssueC = 2 ∧
    (route_issue default_patterns false [] (str "t") tsIssueC).job_type = str "SPEED" ∧
    (route_issue default_patterns false [] (str "t") tsIssueC).estimated_minutes = 5 ∧
    (route_issue default_patterns false [] (str "t") tsIssueC).pattern
      = some (str "pattern-import-fixes") := by
  exact ⟨rfl, rfl, rfl, by decide, by decide, by decide, by decide⟩

/-- Counterexample to claim C5: a standard-format record with no severity
field is ingested with severity UNKNOWN, not INFO. -/
theorem C5_counterexample :
    (ingest_sonarqube constHash (ReadResult.ok (SonarData.standard [sqItemNoSeverity]))).map
      Issue.severity = [str "UNKNOWN"] ∧
    str "UNKNOWN" ≠ str "INFO" := by
  exact ⟨rfl, by decide⟩

/-- Claim C5 as amended: for every record of a standard SonarQube report,
the resulting Issue severity is the upper-cased severity field, defaulting
to UNKNOWN when the field is absent; the INFO default belongs to the
companion INGESTION script parse-sonarqube.py, not to the orchestrator. -/
theorem C5_severity_default (md5hex8 : Str → Str) (items : List SonarItem) :
    (ingest_sonarqube md5hex8 (ReadResult.ok (SonarData.standard items))).map Issue.severity
      = items.map (fun item => pyUpper (item.severity.getD (str "UNKNOWN"))) ∧
    parse_sonarqube_severity none = str "INFO" := by
  constructor
  · simp only [ingest_sonarqube, ingest_sonarqube_std, List.map_map]
    rfl
  · rfl

/-- Counterexample to claim C6: a malformed-JSON CodeRabbit report does not
contribute zero issues and continue - ingest_coderabbit has no exception
handler, so the JSON decode error escapes and aborts the run. -/
theorem C6_counterexample :
    ingest_coderabbit constHash ReadResult.invalidJson = Except.error PyError.jsonDecodeError ∧
    (ingest_coderabbit constHash ReadResult.invalidJson).toOption = none := by
  exact ⟨rfl, rfl⟩

/-- Claim C6 as amended: malformed JSON or undecodable bytes are recovered
only by the SonarQube entry point, which contributes zero issues and lets
the remaining reports of the run proceed; the CodeRabbit entry point
propagates both exceptions and the TypeScript entry point propagates the
decode exception, aborting the run. -/
theorem C6_ingestion_error_handling (md5hex8 : Str → Str) :
    ingest_sonarqube md5hex8 ReadResult.invalidJson = [] ∧
    ingest_sonarqube md5hex8 ReadResult.undecodableBytes = [] ∧
    (∀ rest : List (ReadResult SonarData),
      runSonarReports md5hex8 (ReadResult.invalidJson :: rest)
        = runSonarReports md5hex8 rest) ∧
    (∀ rest : List (ReadResult SonarData),
      runSonarReports md5hex8 (ReadResult.undecodableBytes :: rest)
        = runSonarReports md5hex8 rest) ∧
    ingest_coderabbit md5hex8 ReadResult.invalidJson = Except.error PyError.jsonDecodeError ∧
    ingest_coderabbit md5hex8 ReadResult.undecodableBytes
      = Except.error PyError.unicodeDecodeError ∧
    ingest_typescript md5hex8 TextResult.undecodableBytes
      = Except.error PyError.unicodeDecodeError := by
  refine ⟨rfl, rfl, fun rest => ?_, fun rest => ?_, rfl, rfl, rfl⟩ <;>
    simp [runSonarReports, ingest_sonarqube]

/-- Claim C8: a DEEP-routed issue requires the security-officer agent when
its category is security or its lower-cased file path contains auth, and
the architecture-reviewer agent when its complexity is at least 8; a
SPEED-routed issue requires no agents. -/
theorem C8_agents (patterns : PatternLib) (sf : List Str) (ca : Str) (issue : Issue) :
    (3 < calculate_complexity patterns issue →
      ((issue.category == str "security"
          || pyContains (pyLower issue.file_path) (str "auth")) = true →
        str "security-officer" ∈ (route_issue patterns false sf ca issue).requires_agents) ∧
      (8 ≤ calculate_complexity patterns issue →
        str "architecture-reviewer" ∈ (route_issue patterns false sf ca issue).requires_agents)) ∧
    (calculate_complexity patterns issue ≤ 3 →
      (route_issue patterns false sf ca issue).requires_agents = []) := by
  constructor
  · intro h
    have hnot : ¬ calculate_complexity patterns issue ≤ 3 := Nat.not_le.mpr h
    constructor
    · intro hsec
      simp [route_issue, hnot, hsec]
    · intro h8
      simp [route_issue, hnot, h8]
  · intro h
    simp [route_issue, h]

/-- Witness for C8: the BLOCKER security issue (complexity 10) requires
both agents; the complexity-3 issue routes to SPEED with no agents. -/
theorem C8_agents_witness :
    str "security-officer"
      ∈ (route_issue default_patterns false [] (str "t") issueBlockerSecurity).requires_agents ∧
    str "architecture-reviewer"
      ∈ (route_issue default_patterns false [] (str "t") issueBlockerSecurity).requires_agents ∧
    (route_issue default_patterns false [] (str "t") issueScore3).requires_agents = [] := by
  have h := (C8_agents default_patterns [] (str "t") issueBlockerSecurity).1 (by decide)
  have h2 := (C8_agents default_patterns [] (str "t") issueScore3).2 (by decide)
  exact ⟨h.1 (by decide), h.2 (by decide), h2⟩

/-- Claim C9: scoring and standard SonarQube ingestion are deterministic -
the score is a pure function of severity, rule id, file path and category
(together with the library), and re-ingesting the same report data gives
the same key tuples in the same order and the same derived ids. -/
theorem C9_determinism (patterns : PatternLib) (md5hex8 : Str → Str)
    (i1 i2 : Issue) (items : List SonarItem)
    (hsev : i1.severity = i2.severity) (hrule : i1.rule_id = i2.rule_id)
    (hfile : i1.file_path = i2.file_path) (hcat : i1.category = i2.category) :
    calculate_complexity patterns i1 = calculate_complexity patterns i2 ∧
    (ingest_sonarqube_std md5hex8 items).map
        (fun i => (i.file_path, i.line, i.rule_id, i.severity))
      = (ingest_sonarqube_std md5hex8 items).map
          (fun i => (i.file_path, i.line, i.rule_id, i.severity)) ∧
    (ingest_sonarqube_std md5hex8 items).map Issue.id
      = (ingest_sonarqube_std md5hex8 items).map Issue.id := by
  refine ⟨?_, rfl, rfl⟩
  simp only [calculate_complexity, hsev, hrule, hfile, hcat]

/-- Witness for C9: two issues differing only in id, line and message get
the same score. -/
theorem C9_determinism_witness :
    calculate_complexity default_patterns issueDetA
      = calculate_complexity default_patterns issueDetB ∧
    (ingest_sonarqube_std constHash [sqItemNoSeverity]).map Issue.id
      = (ingest_sonarqube_std constHash [sqItemNoSeverity]).map Issue.id := by
  have h := C9_determinism default_patterns constHash issueDetA issueDetB
    [sqItemNoSeverity] rfl rfl rfl rfl
  exact ⟨h.1, h.2.2⟩

/-- Counterexample to claim C10: the SonarQube-sourced issue with rule id
tsmissing-await hits the default library - its pattern key is exactly
typescript-missing-await - so its score is the overridden 3, not the
severity base plus adjustments (8). -/
theorem C10_counterexample :
    issueTsAwait.source = str "sonarqube" ∧
    pattern_key issueTsAwait.rule_id = str "typescript-missing-await" ∧
    calculate_complexity default_patterns issueTsAwait = 3 ∧
    severity_base issueTsAwait.severity + path_bonus issueTsAwait.file_path
      + category_bonus issueTsAwait.category = 8 ∧
    calculate_complexity default_patterns issueTsAwait
      ≠ min (severity_base issueTsAwait.severity + path_bonus issueTsAwait.file_path
          + category_bonus issueTsAwait.category) 10 := by
  refine ⟨rfl, by decide, by decide, by decide, by decide⟩

/-- Claim C10 as amended: the two sonar-keyed default-library entries can
never override any score, because the pattern key never contains an
upper-case letter; and for every issue whose pattern key is not
typescript-missing-await (the one reachable default key), the score under
the default library is the severity base plus path and category
adjustments, clamped at 10. -/
theorem C10_default_library (rule_id : Str) (issue : Issue)
    (h : pattern_key issue.rule_id ≠ str "typescript-missing-await") :
    pattern_key rule_id ≠ str "sonar-S3516" ∧
    pattern_key rule_id ≠ str "sonar-S128" ∧
    calculate_complexity default_patterns issue =
      min (severity_base issue.severity + path_bonus issue.file_path
        + category_bonus issue.category) 10 := by
  refine ⟨?_, ?_, ?_⟩
  · intro heq
    exact S_not_mem_pattern_key rule_id (by rw [heq]; decide)
  · intro heq
    exact S_not_mem_pattern_key rule_id (by rw [heq]; decide)
  · have h1 : pattern_key issue.rule_id ≠ str "sonar-S3516" := fun heq =>
      S_not_mem_pattern_key issue.rule_id (by rw [heq]; decide)
    have h2 : pattern_key issue.rule_id ≠ str "sonar-S128" := fun heq =>
      S_not_mem_pattern_key issue.rule_id (by rw [heq]; decide)
    have hnone := lookup_default_none (pattern_key issue.rule_id) h1 h2 h
    simp only [calculate_complexity, hnone]

/-- Witness for C10 as amended at rule id S3516: its pattern key s3516
differs from every default-library key and the score is the severity base
plus adjustments. -/
theorem C10_default_library_witness :
    pattern_key (str "S3516") ≠ str "sonar-S3516" ∧
    calculate_complexity default_patterns issueMajorGeneral =
      min (severity_base issueMajorGeneral.severity + path_bonus issueMajorGeneral.file_path
        + category_bonus issueMajorGeneral.category) 10 := by
  have h := C10_default_library (str "S3516") issueMajorGeneral (by decide)
  exact ⟨h.1, h.2.2⟩
